import Mathlib

/-
Verification development for the doc-review contradiction-detection engine.

Shallow embedding conventions:
- Python strings are `List Char`; Python floats are modelled as exact rationals
  (`ℚ`); `round(x, 3)` is modelled as exact round-half-to-even at 3 decimals.
- Python dict metadata is a structure of `Option` fields, with the `.get`
  defaults of the source applied at each use site.
- The regular-expression patterns of the source are transcribed into a small
  regex AST with Python `re` semantics (leftmost match, ordered alternation,
  greedy quantifiers with backtracking, non-overlapping `finditer` scanning,
  case-insensitive matching where the source passes `re.IGNORECASE`).
-/

set_option maxRecDepth 10000

-- Batteries marks the rational operations irreducible, which blocks `decide`
-- on concrete runs of the embedded code; their unfolding is sound.
attribute [local semireducible] Rat.add Rat.sub Rat.mul Rat.inv

namespace DocReview

/-! ### Character helpers (Python `str` semantics for the alphabet used) -/

/-- Lower-casing as performed by Python `str.lower` / `re.IGNORECASE`,
restricted to the alphabet occurring in the source patterns and documents:
ASCII letters plus the accented Spanish letters used by the patterns. -/
def lowerChar (c : Char) : Char :=
  if 'A' ≤ c ∧ c ≤ 'Z' then Char.ofNat (c.toNat + 32)
  else if c = 'Á' then 'á'
  else if c = 'É' then 'é'
  else if c = 'Í' then 'í'
  else if c = 'Ó' then 'ó'
  else if c = 'Ú' then 'ú'
  else if c = 'Ñ' then 'ñ'
  else if c = 'Ü' then 'ü'
  else c

/-- Python `\s` (whitespace) for the characters that occur in the documents. -/
def isSpaceC (c : Char) : Bool :=
  c = ' ' ∨ c = '\t' ∨ c = '\n' ∨ c = '\r' ∨ c = '\x0b' ∨ c = '\x0c'

/-- Python `\w` (word character) for the alphabet used: ASCII alphanumerics,
underscore, and the accented Spanish letters. -/
def isWordC (c : Char) : Bool :=
  c.isAlphanum ∨ c = '_' ∨
  c ∈ ['á', 'é', 'í', 'ó', 'ú', 'ñ', 'ü', 'Á', 'É', 'Í', 'Ó', 'Ú', 'Ñ', 'Ü']

/-- The class `[A-ZÁÉÍÓÚÑ]` from the terminology pattern (exact, no case folding:
the source compiles that pattern without `re.IGNORECASE`). -/
def isUpperTermC (c : Char) : Bool :=
  ('A' ≤ c ∧ c ≤ 'Z') ∨ c ∈ ['Á', 'É', 'Í', 'Ó', 'Ú', 'Ñ']

/-- The class `[a-záéíóúñ]` from the terminology pattern. -/
def isLowerTermC (c : Char) : Bool :=
  ('a' ≤ c ∧ c ≤ 'z') ∨ c ∈ ['á', 'é', 'í', 'ó', 'ú', 'ñ']

/-- A cased character (has upper/lower forms) in the alphabet used; needed for
Python `str.isupper`. -/
def isCasedC (c : Char) : Bool :=
  ('A' ≤ c ∧ c ≤ 'Z') ∨ ('a' ≤ c ∧ c ≤ 'z') ∨
  c ∈ ['á', 'é', 'í', 'ó', 'ú', 'ñ', 'ü', 'Á', 'É', 'Í', 'Ó', 'Ú', 'Ñ', 'Ü']

/-- An upper-case character in the alphabet used. -/
def isUpperC (c : Char) : Bool :=
  ('A' ≤ c ∧ c ≤ 'Z') ∨ c ∈ ['Á', 'É', 'Í', 'Ó', 'Ú', 'Ñ', 'Ü']

/-- Python `str.isupper`: at least one cased character and every cased
character upper-case. -/
def pyIsUpper (s : List Char) : Bool :=
  s.any isCasedC ∧ (s.filter isCasedC).all isUpperC

/-- Python `str.strip` (both-ends whitespace trim). -/
def pyStrip (s : List Char) : List Char :=
  ((s.dropWhile isSpaceC).reverse.dropWhile isSpaceC).reverse

/-! ### Numeric parsing

`parseNum?` models Python `float()` on the value-string shapes that the
extraction patterns can produce (a non-empty digit string, optionally followed
by a point and a non-empty digit string).  Any other string — which the
extraction groups never yield once commas are stripped — is treated as
unparseable, matching the `except: return False` recovery of the source. -/

/-- Numeric value of a digit string (most significant first). -/
def natOfDigits (ds : List Char) : Nat :=
  ds.foldl (fun a c => 10 * a + (c.toNat - '0'.toNat)) 0

/-- Parse `d+` or `d+.d+` to an exact rational; `none` otherwise. -/
def parseNum? (s : List Char) : Option ℚ :=
  let ds := s.takeWhile Char.isDigit
  let rest := s.dropWhile Char.isDigit
  if ds = [] then none
  else
    match rest with
    | [] => some (natOfDigits ds : ℚ)
    | '.' :: fs =>
        if fs ≠ [] ∧ fs.all Char.isDigit then
          some ((natOfDigits ds : ℚ) + (natOfDigits fs : ℚ) / (10 : ℚ) ^ fs.length)
        else none
    | _ => none

/-! ### Regex engine

A small backtracking engine with Python `re` semantics for the constructs the
source patterns use: character classes, concatenation, ordered alternation,
greedy `*` `+` `?` `{n}`, one capturing group, and the zero-width `\b`
assertion.  `runRE` returns the full candidate list in Python's backtracking
priority order (alternation left to right, quantifiers longest first), so the
head of the list is exactly the match Python picks at a given position.
Starred subexpressions of the source always consume at least one character;
iterations that consume nothing are skipped, mirroring Python's refusal to
repeat an empty match. -/

inductive RE where
  | eps : RE
  | cls : (Char → Bool) → RE
  | cat : RE → RE → RE
  | alt : RE → RE → RE
  | star : RE → RE
  | opt : RE → RE
  | group : RE → RE
  | wordB : RE

/-- AST size, used to bound the engine's recursion depth. -/
def RE.size : RE → Nat
  | .eps => 1
  | .wordB => 1
  | .cls _ => 1
  | .cat r1 r2 => r1.size + r2.size + 1
  | .alt r1 r2 => r1.size + r2.size + 1
  | .star r => r.size + 1
  | .opt r => r.size + 1
  | .group r => r.size + 1

/-- Candidates: (consumed characters in reverse, remaining input, group-1
capture if the group participated).  `fuel` only serves termination: every
recursive call either shrinks the regex or (for a `star` iteration, which must
consume at least one character) shrinks the input, so the wrapper's
`(rest.length + 1) * (re.size + 1) + 1` is never exhausted and the candidate
list is exactly Python's backtracking order. -/
def runRE : Nat → RE → List Char → List Char → List (List Char × List Char × Option (List Char))
  | 0, _, _, _ => []
  | fuel + 1, re, rev, rest =>
      match re with
      | .eps => [(rev, rest, none)]
      | .wordB =>
          let wPrev := match rev with | [] => false | c :: _ => isWordC c
          let wNext := match rest with | [] => false | c :: _ => isWordC c
          if wPrev ≠ wNext then [(rev, rest, none)] else []
      | .cls f =>
          match rest with
          | [] => []
          | c :: rest1 => if f c then [(c :: rev, rest1, none)] else []
      | .cat r1 r2 =>
          (runRE fuel r1 rev rest).flatMap fun p =>
            (runRE fuel r2 p.1 p.2.1).map fun q => (q.1, q.2.1, p.2.2 <|> q.2.2)
      | .alt r1 r2 => runRE fuel r1 rev rest ++ runRE fuel r2 rev rest
      | .opt r => runRE fuel r rev rest ++ [(rev, rest, none)]
      | .star r =>
          (((runRE fuel r rev rest).filter fun p => p.2.1.length < rest.length).flatMap fun p =>
            (runRE fuel (.star r) p.1 p.2.1).map fun q => (q.1, q.2.1, p.2.2 <|> q.2.2))
          ++ [(rev, rest, none)]
      | .group r =>
          (runRE fuel r rev rest).map fun p =>
            (p.1, p.2.1, some ((p.1.take (p.1.length - rev.length)).reverse))

/-- Attempt a match at the current position (`rev` = characters before the
position, reversed, needed by `\b`).  Returns (consumed length, capture). -/
def matchAtRE (re : RE) (rev rest : List Char) : Option (Nat × Option (List Char)) :=
  match runRE ((rest.length + 1) * (re.size + 1) + 1) re rev rest with
  | [] => none
  | p :: _ => some (rest.length - p.2.1.length, p.2.2)

/-- `re.finditer`: non-overlapping matches, scanning left to right; on a match
the scan resumes at its end.  Returns (start offset, length, capture). -/
def findIterAux (re : RE) : Nat → List Char → List Char → Nat → List (Nat × Nat × Option (List Char))
  | 0, _, _, _ => []
  | fuel + 1, rev, rest, pos =>
      match matchAtRE re rev rest with
      | some (len, g) =>
          if len = 0 then
            match rest with
            | [] => []
            | c :: rest' => findIterAux re fuel (c :: rev) rest' (pos + 1)
          else
            (pos, len, g) :: findIterAux re fuel ((rest.take len).reverse ++ rev) (rest.drop len) (pos + len)
      | none =>
          match rest with
          | [] => []
          | c :: rest' => findIterAux re fuel (c :: rev) rest' (pos + 1)

def findIter (re : RE) (content : List Char) : List (Nat × Nat × Option (List Char)) :=
  findIterAux re (content.length + 1) [] content 0

/-- A single character, matched case-insensitively (for `re.IGNORECASE`). -/
def ci (c : Char) : RE := .cls fun x => lowerChar x = lowerChar c

/-- A single character, matched exactly. -/
def ch (c : Char) : RE := .cls fun x => x = c

/-- A literal word, matched case-insensitively. -/
def litCI (s : String) : RE := s.toList.foldr (fun c acc => .cat (ci c) acc) .eps

/-- Ordered alternation of a list of alternatives (left to right). -/
def altList : List RE → RE
  | [] => .cls fun _ => false
  | [r] => r
  | r :: rs => .alt r (altList rs)

/-- `r{n}`: exactly n repetitions. -/
def repN (r : RE) : Nat → RE
  | 0 => .eps
  | n + 1 => .cat r (repN r n)

/-- `\d` -/
def digitRE : RE := .cls Char.isDigit

/-- `\d+` (greedy) -/
def digitsRE : RE := .cat digitRE (.star digitRE)

/-- `\s*` (greedy) -/
def wsStar : RE := .star (.cls isSpaceC)

/-- `\s+` (greedy) -/
def wsPlus : RE := .cat (.cls isSpaceC) (.star (.cls isSpaceC))

/-! ### ContradictionAnalyzer (src/app/mcp/servers/analyzer.py)

The eleven fact types of `contradiction_patterns` / `severity_weights`. -/

inductive PatternType where
  | plazo_dias | plazo_meses | plazo_anos
  | monto_soles | monto_dolares | porcentaje
  | obligacion | prohibicion | opcion
  | autoriza | deniega
  deriving DecidableEq, Repr

/-- Severity labels produced by the analyzer (`"medium"`, `"high"`,
`"critical"`). -/
inductive Severity where
  | medium | high | critical
  deriving DecidableEq, Repr

/-- `S/\.?\s*(\d+(?:,\d{3})*(?:\.\d{2})?)` and `\$\s*(...)` share this group:
`\d+(?:,\d{3})*(?:\.\d{2})?`. -/
def montoGroup : RE :=
  .cat digitsRE
    (.cat (.star (.cat (ch ',') (repN digitRE 3)))
      (.opt (.cat (ch '.') (repN digitRE 2))))

/-- `contradiction_patterns`, transcribed in the source's (insertion) order.
All are matched with `re.IGNORECASE`. -/
def contradiction_patterns : List (PatternType × RE) :=
  [ (.plazo_dias, .cat (.group digitsRE) (.cat wsStar (.cat (litCI "día") (.opt (ci 's'))))),
    (.plazo_meses, .cat (.group digitsRE) (.cat wsStar (.cat (litCI "mese") (.opt (ci 's'))))),
    (.plazo_anos, .cat (.group digitsRE) (.cat wsStar (.cat (litCI "año") (.opt (ci 's'))))),
    (.monto_soles, .cat (ci 'S') (.cat (ch '/') (.cat (.opt (ch '.')) (.cat wsStar (.group montoGroup))))),
    (.monto_dolares, .cat (ch '$') (.cat wsStar (.group montoGroup))),
    (.porcentaje, .cat (.group (.cat digitsRE (.opt (.cat (ch '.') digitsRE)))) (.cat wsStar (ch '%'))),
    (.obligacion, .group (altList
      [litCI "debe", litCI "deberá", litCI "obligatorio", litCI "requerido", litCI "necesario", litCI "imperativo"])),
    (.prohibicion, .group (altList
      [litCI "no debe", litCI "no deberá", litCI "prohibido", litCI "vedado", litCI "impedido"])),
    (.opcion, .group (altList
      [litCI "puede", litCI "podrá", litCI "opcional", litCI "facultativo", litCI "discrecional"])),
    (.autoriza, .group (altList
      [litCI "autoriza", litCI "aprueba", litCI "permite", litCI "habilita"])),
    (.deniega, .group (altList
      [litCI "deniega", litCI "rechaza", litCI "impide", litCI "prohíbe"])) ]

/-- `severity_weights` (every key present; the dict's `"medium"` default is
unreachable). -/
def severity_weights : PatternType → Severity
  | .plazo_dias => .high
  | .plazo_meses => .high
  | .plazo_anos => .high
  | .monto_soles => .high
  | .monto_dolares => .high
  | .porcentaje => .medium
  | .obligacion => .critical
  | .prohibicion => .critical
  | .opcion => .medium
  | .autoriza => .high
  | .deniega => .critical

/-- One extracted datum: `{"value": ..., "position": ..., "context": ...}`. -/
structure ExtractedVal where
  value : List Char
  position : Nat
  context : List Char
  deriving DecidableEq, Repr

/-- Document metadata as consumed by the analyzer: `doc_id` and
`nivel_jerarquico`, with the source's `.get` defaults applied at use sites. -/
structure Meta where
  doc_id : Option (List Char)
  nivel_jerarquico : Option Int
  deriving DecidableEq, Repr

/-- `_extract_data`: run each pattern over the content; a fact type with no
match is absent from the result.  `value` is the first captured group (every
analyzer pattern has one), `context` the 50-character window with newlines
collapsed and ends stripped. -/
def extract_data (content : List Char) : List (PatternType × List ExtractedVal) :=
  contradiction_patterns.filterMap fun pr =>
    match findIter pr.2 content with
    | [] => none
    | ms => some (pr.1, ms.map fun m =>
        let wStart := m.1 - 50
        let wEnd := Nat.min content.length (m.1 + m.2.1 + 50)
        { value := (m.2.2).getD ((content.drop m.1).take m.2.1)
          position := m.1
          context := pyStrip (((content.take wEnd).drop wStart).map fun c => if c = '\n' then ' ' else c) })

/-- Python list/string prefix test. -/
def isPrefixL : List Char → List Char → Bool
  | [], _ => true
  | _ :: _, [] => false
  | c :: cs, d :: ds => c = d ∧ isPrefixL cs ds

/-- Python substring membership `pat in s`. -/
def substrIn (pat : List Char) : List Char → Bool
  | [] => isPrefixL pat []
  | c :: t => isPrefixL pat (c :: t) ∨ substrIn pat t

/-- The `opposites` table of `_values_conflict`. -/
def opposites : List (List Char × List (List Char)) :=
  [ ("debe".toList, ["no debe".toList, "puede".toList]),
    ("obligatorio".toList, ["opcional".toList, "prohibido".toList]),
    ("requerido".toList, ["opcional".toList]) ]

/-- Strip commas, as in `val.replace(",", "")`. -/
def stripCommas (s : List Char) : List Char := s.filter fun c => c ≠ ','

/-- `_values_conflict`.  Sensitivity is the raw string the caller passes:
`"strict"` and `"moderate"` are compared literally and anything else falls to
the flexible branch, exactly as in the source. -/
def values_conflict (target_val rector_val : List Char) (pattern_type : PatternType)
    (sensitivity : List Char) : Bool :=
  if pattern_type ∈ [PatternType.plazo_dias, .plazo_meses, .plazo_anos, .porcentaje] then
    match parseNum? target_val, parseNum? rector_val with
    | some t, some r =>
        if sensitivity = "strict".toList then t ≠ r
        else if sensitivity = "moderate".toList then |t - r| > r * (1/10)
        else |t - r| > r * (1/5)
    | _, _ => false
  else if pattern_type ∈ [PatternType.monto_soles, .monto_dolares] then
    match parseNum? (stripCommas target_val), parseNum? (stripCommas rector_val) with
    | some t, some r =>
        if sensitivity = "strict".toList then t ≠ r
        else |t - r| > r * (1/20)
    | _, _ => false
  else if pattern_type ∈ [PatternType.obligacion, .prohibicion, .opcion] then
    opposites.any fun kv =>
      substrIn kv.1 (target_val.map lowerChar) ∧
      kv.2.any fun opp => substrIn opp (rector_val.map lowerChar)
  else false

/-- A raw conflict as produced by `_compare_values`. -/
structure RawConflict where
  target : List Char
  rector : List Char
  context_target : List Char
  context_rector : List Char
  deriving DecidableEq, Repr

/-- `_compare_values`: every target/rector value pair that conflicts, target
values outermost. -/
def compare_values (target_values rector_values : List ExtractedVal)
    (pattern_type : PatternType) (sensitivity : List Char) : List RawConflict :=
  target_values.flatMap fun tv =>
    rector_values.filterMap fun rv =>
      if values_conflict tv.value rv.value pattern_type sensitivity then
        some ⟨tv.value, rv.value, tv.context, rv.context⟩
      else none

/-- `_calculate_severity`. -/
def calculate_severity (pattern_type : PatternType) (target_level rector_level : Int)
    (sensitivity : List Char) : Severity :=
  let base := severity_weights pattern_type
  let base := if target_level - rector_level > 2 ∧ base = .medium then .high else base
  if base = .high ∧ sensitivity = "strict".toList then .critical else base

/-- `_generate_description` (fact-type templates with the generic fallback). -/
def generate_description (pattern_type : PatternType) (target_val rector_val rector_doc : List Char) :
    List Char :=
  match pattern_type with
  | .plazo_dias =>
      "El documento establece ".toList ++ target_val ++ " días, pero ".toList ++ rector_doc ++
      " requiere ".toList ++ rector_val ++ " días".toList
  | .plazo_meses =>
      "El documento indica ".toList ++ target_val ++ " meses, pero ".toList ++ rector_doc ++
      " establece ".toList ++ rector_val ++ " meses".toList
  | .monto_soles =>
      "El monto de S/ ".toList ++ target_val ++ " difiere del monto en ".toList ++ rector_doc ++
      ": S/ ".toList ++ rector_val
  | .monto_dolares =>
      "El monto de $ ".toList ++ target_val ++ " difiere del monto en ".toList ++ rector_doc ++
      ": $ ".toList ++ rector_val
  | .porcentaje =>
      "El porcentaje de ".toList ++ target_val ++ "% difiere del establecido en ".toList ++ rector_doc ++
      ": ".toList ++ rector_val ++ "%".toList
  | .obligacion => "Posible conflicto de obligaciones con ".toList ++ rector_doc
  | _ =>
      "Diferencia detectada: \x27".toList ++ target_val ++ "\x27 vs \x27".toList ++ rector_val ++
      "\x27 en ".toList ++ rector_doc

/-- One reported item (contradiction or warning). -/
structure Contradiction where
  ctype : PatternType
  severity : Severity
  target_value : List Char
  rector_value : List Char
  rector_doc : List Char
  rector_level : Int
  context_target : List Char
  context_rector : List Char
  description : List Char
  deriving DecidableEq, Repr

/-- `_generate_recommendation`. -/
def generate_recommendation (score : ℚ) : List Char :=
  if score ≥ 9/10 then "✅ El documento cumple con los requisitos normativos".toList
  else if score ≥ 7/10 then "⚠️ El documento tiene algunas inconsistencias que deben revisarse".toList
  else if score ≥ 1/2 then "❌ El documento presenta contradicciones importantes que requieren corrección".toList
  else "🚨 El documento tiene contradicciones críticas y debe ser reescrito".toList

/-- Python `max` on two rationals (kernel-computable; equal to `max`). -/
def maxQ (a b : ℚ) : ℚ := if a < b then b else a

/-- Python `round(x, 3)` modelled exactly: round half to even at 3 decimals. -/
def round3 (q : ℚ) : ℚ :=
  let scaled := 1000 * q
  let f : ℤ := ⌊scaled⌋
  let n : ℤ :=
    if scaled - f < 1/2 then f
    else if scaled - f > 1/2 then f + 1
    else if f % 2 = 0 then f else f + 1
  (n : ℚ) / 1000

/-- The per-item penalty loop body of `detect_contradictions`. -/
def contradiction_penalty (contradictions : List Contradiction) : ℚ :=
  contradictions.foldl
    (fun p c =>
      p + (if c.severity = .critical then 1/5
           else if c.severity = .high then 1/10
           else 1/20))
    0

/-- The `analysis_summary` block. -/
structure AnalysisSummary where
  critical_issues : Nat
  high_issues : Nat
  medium_issues : Nat
  total_rectores_checked : Nat
  recommendation : List Char
  deriving DecidableEq, Repr

/-- The dict returned by `detect_contradictions`. -/
structure AnalysisResult where
  contradictions_found : Nat
  warnings_found : Nat
  contradictions : List Contradiction
  warnings : List Contradiction
  compliance_score : ℚ
  analysis_summary : AnalysisSummary
  deriving DecidableEq, Repr

/-- The nested comparison loops of `detect_contradictions`, after extraction:
for each rector, for each fact type present in both documents, every
conflicting value pair becomes one record (rector-major, then pattern order,
then target-value-major — the source's append order). -/
def all_conflict_records (target_data : List (PatternType × List ExtractedVal))
    (target_meta : Meta) (rector_data : List ((List (PatternType × List ExtractedVal)) × Meta))
    (sensitivity : List Char) : List Contradiction :=
  rector_data.flatMap fun rd =>
    target_data.flatMap fun td =>
      match rd.1.lookup td.1 with
      | none => []
      | some rector_values =>
          (compare_values td.2 rector_values td.1 sensitivity).map fun c =>
            let sev := calculate_severity td.1
              ((target_meta.nivel_jerarquico).getD 999) ((rd.2.nivel_jerarquico).getD 1) sensitivity
            { ctype := td.1
              severity := sev
              target_value := c.target
              rector_value := c.rector
              rector_doc := (rd.2.doc_id).getD "Desconocido".toList
              rector_level := (rd.2.nivel_jerarquico).getD 1
              context_target := c.context_target
              context_rector := c.context_rector
              description := generate_description td.1 c.target c.rector
                ((rd.2.doc_id).getD "Rector".toList) }

/-- `detect_contradictions` on already-extracted data (the body of the source
function after its two `_extract_data` calls). -/
def detect_from_data (target_data : List (PatternType × List ExtractedVal)) (target_meta : Meta)
    (rector_data : List ((List (PatternType × List ExtractedVal)) × Meta))
    (sensitivity : List Char) : AnalysisResult :=
  let records := all_conflict_records target_data target_meta rector_data sensitivity
  let contradictions := records.filter fun c => c.severity = .critical ∨ c.severity = .high
  let warnings := records.filter fun c => ¬(c.severity = .critical ∨ c.severity = .high)
  let total_checks := target_data.length * rector_data.length
  let compliance_score : ℚ :=
    if total_checks > 0 then
      maxQ 0 (1 - contradiction_penalty contradictions / ((Nat.max total_checks 1 : Nat) : ℚ))
    else 1
  { contradictions_found := contradictions.length
    warnings_found := warnings.length
    contradictions := contradictions
    warnings := warnings
    compliance_score := round3 compliance_score
    analysis_summary :=
      { critical_issues := (contradictions.filter fun c => c.severity = .critical).length
        high_issues := (contradictions.filter fun c => c.severity = .high).length
        medium_issues := (contradictions.filter fun c => c.severity = .medium).length
        total_rectores_checked := rector_data.length
        recommendation := generate_recommendation compliance_score } }

/-- `ContradictionAnalyzer.detect_contradictions` on raw contents. -/
def detect_contradictions (target_content : List Char) (target_metadata : Meta)
    (rector_contents : List (List Char × Meta)) (sensitivity : List Char) : AnalysisResult :=
  detect_from_data (extract_data target_content) target_metadata
    (rector_contents.map fun rc => (extract_data rc.1, rc.2)) sensitivity

/-! ### difflib.SequenceMatcher (used by `DocumentComparer`)

Faithful model of CPython `difflib.SequenceMatcher` with `isjunk=None` and the
default `autojunk=True`: `bjunk` is empty, so the two junk extension loops of
`find_longest_match` reduce to extending over equal elements, and elements of
`b` that are "popular" (when `len(b) >= 200`) are excluded from `b2j`. -/

/-- Ascending indices of `x` in `b`. -/
def indicesOf {α : Type} [DecidableEq α] (b : List α) (x : α) : List Nat :=
  b.enum.filterMap fun p => if p.2 = x then some p.1 else none

/-- `b2j` lookup with the autojunk popularity filter. -/
def b2jLookup {α : Type} [DecidableEq α] (b : List α) (x : α) : List Nat :=
  let idxs := indicesOf b x
  if b.length ≥ 200 ∧ idxs.length > b.length / 100 + 1 then [] else idxs

/-- Best block found so far: i, j, size. -/
structure FLMBest where
  besti : Nat
  bestj : Nat
  bestsize : Nat
  deriving DecidableEq, Repr

/-- One row of the `find_longest_match` dynamic program: fold over the
ascending `b2j` indices of `a[i]`, reading run lengths from the previous row
(`j2len`) and recording strictly better blocks. -/
def flmRow (blo bhi i : Nat) (js : List Nat) (prev : List (Nat × Nat)) (best : FLMBest) :
    List (Nat × Nat) × FLMBest :=
  js.foldl
    (fun acc j =>
      if j < blo ∨ bhi ≤ j then acc
      else
        let k := (if j = 0 then 0 else (prev.lookup (j - 1)).getD 0) + 1
        let best := if k > acc.2.bestsize then ⟨i + 1 - k, j + 1 - k, k⟩ else acc.2
        ((j, k) :: acc.1, best))
    ([], best)

/-- The dynamic program of `find_longest_match` over rows `alo..ahi-1`. -/
def flmRows {α : Type} [DecidableEq α] (a b : List α) (alo ahi blo bhi : Nat) : FLMBest :=
  ((List.range' alo (ahi - alo)).foldl
    (fun acc i =>
      let js := match a.get? i with
        | some x => b2jLookup b x
        | none => []
      let r := flmRow blo bhi i js acc.1 acc.2
      (r.1, r.2))
    (([] : List (Nat × Nat)), (⟨alo, blo, 0⟩ : FLMBest))).2

/-- Equality of `a[i]` and `b[j]` when both indices are in range. -/
def eltEq {α : Type} [DecidableEq α] (a b : List α) (i j : Nat) : Bool :=
  match a.get? i, b.get? j with
  | some x, some y => x = y
  | _, _ => false

/-- Left extension loop (with empty `bjunk` it extends over any equal
elements). -/
def flmExtendLeft {α : Type} [DecidableEq α] (a b : List α) (alo blo : Nat) :
    Nat → FLMBest → FLMBest
  | 0, st => st
  | fuel + 1, st =>
      if st.besti > alo ∧ st.bestj > blo ∧ eltEq a b (st.besti - 1) (st.bestj - 1) then
        flmExtendLeft a b alo blo fuel ⟨st.besti - 1, st.bestj - 1, st.bestsize + 1⟩
      else st

/-- Right extension loop. -/
def flmExtendRight {α : Type} [DecidableEq α] (a b : List α) (ahi bhi : Nat) :
    Nat → FLMBest → FLMBest
  | 0, st => st
  | fuel + 1, st =>
      if st.besti + st.bestsize < ahi ∧ st.bestj + st.bestsize < bhi ∧
          eltEq a b (st.besti + st.bestsize) (st.bestj + st.bestsize) then
        flmExtendRight a b ahi bhi fuel ⟨st.besti, st.bestj, st.bestsize + 1⟩
      else st

/-- `SequenceMatcher.find_longest_match` on the slice `a[alo:ahi]`,
`b[blo:bhi]`. -/
def find_longest_match {α : Type} [DecidableEq α] (a b : List α) (alo ahi blo bhi : Nat) :
    FLMBest :=
  let st := flmRows a b alo ahi blo bhi
  let st := flmExtendLeft a b alo blo st.besti st
  flmExtendRight a b ahi bhi (ahi - (st.besti + st.bestsize)) st

/-- Total size of all matching blocks (the recursive divide-and-conquer of
`get_matching_blocks`; sorting and merging adjacent blocks leave the total
size unchanged, and only the total enters `ratio`). -/
def smMatchSizeAux {α : Type} [DecidableEq α] (a b : List α) :
    Nat → Nat → Nat → Nat → Nat → Nat
  | 0, _, _, _, _ => 0
  | fuel + 1, alo, ahi, blo, bhi =>
      let m := find_longest_match a b alo ahi blo bhi
      if m.bestsize = 0 then 0
      else
        smMatchSizeAux a b fuel alo m.besti blo m.bestj + m.bestsize +
        smMatchSizeAux a b fuel (m.besti + m.bestsize) ahi (m.bestj + m.bestsize) bhi

def smMatchSize {α : Type} [DecidableEq α] (a b : List α) : Nat :=
  smMatchSizeAux a b (a.length + b.length + 1) 0 a.length 0 b.length

/-- `SequenceMatcher(None, a, b).ratio()` as an exact rational:
`2 * M / (len(a) + len(b))`, and 1.0 on two empty sequences. -/
def smRatioQ {α : Type} [DecidableEq α] (a b : List α) : ℚ :=
  if a.length + b.length = 0 then 1
  else 2 * (smMatchSize a b : ℚ) / ((a.length + b.length : Nat) : ℚ)

/-! ### DocumentComparer (src/app/mcp/servers/comparer.py)

The presentation-only fields of the source's result dicts (the `analysis`
sentences and the `[:20]` / `[:10]` / `[:5]` display samples of set-ordered
lists, whose order Python leaves unspecified) are not modelled; every field a
claim touches is. -/

/-- `re.findall` returning the whole match when the pattern has no group and
the group otherwise — matching Python, which returns group 1 when exactly one
group is present. -/
def findAll (re : RE) (content : List Char) : List (List Char) :=
  (findIter re content).map fun m => (m.2.2).getD ((content.drop m.1).take m.2.1)

/-- The terminology pattern
`\b[A-ZÁÉÍÓÚÑ][a-záéíóúñ]+(?:\s+[A-ZÁÉÍÓÚÑ][a-záéíóúñ]+)*\b`
(compiled without `re.IGNORECASE`). -/
def termPattern : RE :=
  let word := RE.cat (.cls isUpperTermC) (.cat (.cls isLowerTermC) (.star (.cls isLowerTermC)))
  .cat .wordB (.cat word (.cat (.star (.cat wsPlus word)) .wordB))

/-- The `common_words` stop set. -/
def common_words : Finset (List Char) :=
  (["El", "La", "Los", "Las", "Un", "Una", "De", "Del", "En", "Por", "Para", "Con"].map
    String.toList).toFinset

/-- Term set of one document after stop-word removal. -/
def termSet (doc : List Char) : Finset (List Char) :=
  (findAll termPattern doc).toFinset \ common_words

/-- `_compare_terminology` (structured fields). -/
structure TerminologyResult where
  unique_to_doc1 : Finset (List Char)
  unique_to_doc2 : Finset (List Char)
  common_terms : Finset (List Char)
  terminology_similarity : ℚ
  total_unique_terms_doc1 : Nat
  total_unique_terms_doc2 : Nat
  deriving DecidableEq

def compare_terminology (doc1 doc2 : List Char) : TerminologyResult :=
  let terms1 := termSet doc1
  let terms2 := termSet doc2
  let similarity : ℚ := ((terms1 ∩ terms2).card : ℚ) / ((Nat.max (terms1 ∪ terms2).card 1 : Nat) : ℚ)
  { unique_to_doc1 := terms1 \ terms2
    unique_to_doc2 := terms2 \ terms1
    common_terms := terms1 ∩ terms2
    terminology_similarity := round3 similarity
    total_unique_terms_doc1 := terms1.card
    total_unique_terms_doc2 := terms2.card }

/-- The numeric category patterns of `_compare_numeric_values`, in dict
order; all matched with `re.IGNORECASE`.  `numeros_generales` is `\b(\d+)\b`. -/
def numericPatterns : List (List Char × RE) :=
  [ ("dias".toList, .cat (.group digitsRE) (.cat wsStar (.cat (litCI "día") (.opt (ci 's'))))),
    ("meses".toList, .cat (.group digitsRE) (.cat wsStar (.cat (litCI "mese") (.opt (ci 's'))))),
    ("anos".toList, .cat (.group digitsRE) (.cat wsStar (.cat (litCI "año") (.opt (ci 's'))))),
    ("porcentajes".toList, .cat (.group (.cat digitsRE (.opt (.cat (ch '.') digitsRE)))) (.cat wsStar (ch '%'))),
    ("montos".toList, .cat (ch '$') (.cat wsStar (.group montoGroup))),
    ("numeros_generales".toList, .cat .wordB (.cat (.group digitsRE) .wordB)) ]

/-- `_compare_numeric_values` (structured fields). -/
structure NumericResult where
  values_doc1 : List (List Char × List (List Char))
  values_doc2 : List (List Char × List (List Char))
  mismatches : List (List Char × Finset (List Char) × Finset (List Char))
  potential_contradictions : Bool
  deriving DecidableEq

def compare_numeric_values (doc1 doc2 : List Char) : NumericResult :=
  let values1 := numericPatterns.map fun p => (p.1, findAll p.2 doc1)
  let values2 := numericPatterns.map fun p => (p.1, findAll p.2 doc2)
  let mismatches := numericPatterns.filterMap fun p =>
    if p.1 = "numeros_generales".toList then none
    else
      let set1 := ((values1.lookup p.1).getD []).toFinset
      let set2 := ((values2.lookup p.1).getD []).toFinset
      if set1 ≠ set2 then some (p.1, set1 \ set2, set2 \ set1) else none
  { values_doc1 := values1.filter fun p => p.1 ≠ "numeros_generales".toList
    values_doc2 := values2.filter fun p => p.1 ≠ "numeros_generales".toList
    mismatches := mismatches
    potential_contradictions := mismatches.length > 0 }

/-- Split on newline characters (Python `str.split("\n")`). -/
def splitNL (s : List Char) : List (List Char) :=
  let step := s.foldr
    (fun c acc => if c = '\n' then ([], acc.1 :: acc.2) else (c :: acc.1, acc.2))
    (([], []) : List Char × List (List Char))
  step.1 :: step.2

/-- Non-blank stripped lines, as in `_compare_structure`. -/
def docLines (doc : List Char) : List (List Char) :=
  ((splitNL doc).map pyStrip).filter fun l => l ≠ []

/-- A section line: matches `^\d+\.` or is `str.isupper`. -/
def isSectionLine (l : List Char) : Bool :=
  (l.takeWhile Char.isDigit ≠ [] ∧ (l.dropWhile Char.isDigit).head? = some '.') ∨ pyIsUpper l

/-- `_compare_structure` (structured fields). -/
structure StructureResult where
  doc1_lines : Nat
  doc2_lines : Nat
  doc1_sections : Nat
  doc2_sections : Nat
  structure_similarity : ℚ
  line_difference : Nat
  deriving DecidableEq

def compare_structure (doc1 doc2 : List Char) : StructureResult :=
  let lines1 := docLines doc1
  let lines2 := docLines doc2
  { doc1_lines := lines1.length
    doc2_lines := lines2.length
    doc1_sections := (lines1.filter isSectionLine).length
    doc2_sections := (lines2.filter isSectionLine).length
    structure_similarity := round3 (smRatioQ lines1 lines2)
    line_difference := if lines1.length ≥ lines2.length then lines1.length - lines2.length
                       else lines2.length - lines1.length }

/-- The `summary` block of `_compare_full`. -/
structure FullSummary where
  similar_terminology : Bool
  has_numeric_differences : Bool
  similar_structure : Bool
  overall_similarity : ℚ
  deriving DecidableEq

/-- `_compare_full` (structured fields). -/
structure FullResult where
  text_similarity : ℚ
  length_doc1 : Nat
  length_doc2 : Nat
  terminology_analysis : TerminologyResult
  numeric_analysis : NumericResult
  structure_analysis : StructureResult
  summary : FullSummary
  deriving DecidableEq

def compare_full (doc1 doc2 : List Char) : FullResult :=
  let terminology := compare_terminology doc1 doc2
  let numeric := compare_numeric_values doc1 doc2
  let structural := compare_structure doc1 doc2
  let text_similarity := smRatioQ doc1 doc2
  { text_similarity := round3 text_similarity
    length_doc1 := doc1.length
    length_doc2 := doc2.length
    terminology_analysis := terminology
    numeric_analysis := numeric
    structure_analysis := structural
    summary :=
      { similar_terminology := terminology.terminology_similarity > 1/2
        has_numeric_differences := numeric.potential_contradictions
        similar_structure := structural.structure_similarity > 3/10
        overall_similarity := round3 text_similarity } }

/-- The payload of `DocumentComparer.compare_documents`, by comparison type. -/
inductive ComparisonPayload where
  | terminology (t : TerminologyResult)
  | numeric (n : NumericResult)
  | structural (s : StructureResult)
  | full (f : FullResult)
  deriving DecidableEq

/-- `compare_documents`: dispatch on the `comparison_type` string; anything
that is not one of the three named kinds falls to `full`. -/
def compare_documents (doc1_content doc2_content : List Char)
    (comparison_type : List Char) : ComparisonPayload :=
  if comparison_type = "terminology".toList then
    .terminology (compare_terminology doc1_content doc2_content)
  else if comparison_type = "numeric".toList then
    .numeric (compare_numeric_values doc1_content doc2_content)
  else if comparison_type = "structure".toList then
    .structural (compare_structure doc1_content doc2_content)
  else
    .full (compare_full doc1_content doc2_content)

/-! ### ClaudeOrchestrator (src/app/mcp/orchestrator.py)

The external collaborators — the Anthropic planner and the SQLite-backed
`DocumentReader` — are oracle parameters: the planner is an arbitrary function
of the accumulated conversation, and each reader operation is an arbitrary
fallible function (`Except PyErr …` models a Python call that may raise).
`DocumentComparer` and `ContradictionAnalyzer` are the embeddings above. -/

/-- A value in a tool-input dict. -/
inductive FieldVal where
  | str (s : List Char)
  | strList (l : List (List Char))
  | boolean (b : Bool)
  deriving DecidableEq, Repr

/-- A tool-input dict (keys assumed distinct, as produced by the planner). -/
structure ToolInput where
  fields : List (List Char × FieldVal)
  deriving DecidableEq, Repr

/-- `tool_input.get(k)`. -/
def ToolInput.get? (ti : ToolInput) (k : List Char) : Option FieldVal :=
  ti.fields.lookup k

/-- A Python exception inside the dispatcher. -/
inductive PyErr where
  | keyError (k : List Char)
  | typeError
  | raised (msg : List Char)
  deriving DecidableEq, Repr

/-- `tool_input[k]`: raises `KeyError` when absent. -/
def getItem (ti : ToolInput) (k : List Char) : Except PyErr FieldVal :=
  match ti.get? k with
  | some v => .ok v
  | none => .error (.keyError k)

/-- Rendering of an exception for the catch-all error payload (the exact
message text is presentation only). -/
def pyErrMsg : PyErr → List Char
  | .keyError k => "KeyError: ".toList ++ k
  | .typeError => "TypeError".toList
  | .raised m => m

/-- What `reader.read_document` returns: a success flag with content and
metadata, or a failure dict. -/
structure ReadResult where
  success : Bool
  content : List Char
  metadata : Meta
  deriving DecidableEq, Repr

/-- A dispatch result payload (`success`/`error` dicts of the source). -/
inductive Payload where
  | readRes (r : ReadResult)
  | listing (tag : List Char)
  | hierarchy (tag : List Char)
  | comparison (c : ComparisonPayload)
  | analysis (a : AnalysisResult)
  | keyTerms (doc_id : FieldVal) (key_terms : Finset (List Char)) (total_unique_terms : Nat)
  | errorPayload (msg : List Char)
  deriving DecidableEq

/-- Is this the error-payload shape (a dict carrying an `error` string)? -/
def Payload.isError : Payload → Bool
  | .errorPayload _ => true
  | _ => false

/-- The oracle interface to the external reader (SQLite corpus). -/
structure Backends where
  read_document : FieldVal → Option FieldVal → Except PyErr ReadResult
  list_documents : Option FieldVal → Option FieldVal → Option FieldVal → Except PyErr Payload
  get_document_hierarchy : FieldVal → Except PyErr Payload

/-- Display form of a field value where the source interpolates it into text. -/
def displayVal : FieldVal → List Char
  | .str s => s
  | .boolean b => if b then "True".toList else "False".toList
  | .strList _ => "<list>".toList

/-- The string a field value contributes to a `==` comparison against the
comparison-type / sensitivity keywords: a non-string Python object compares
unequal to every keyword, so any non-keyword stand-in is faithful. -/
def keywordVal : FieldVal → List Char
  | .str s => s
  | .boolean _ => "<bool>".toList
  | .strList _ => "<list>".toList

/-- Python iteration over a tool-input value (`for x in v`): lists yield their
elements, strings their characters, and a bool raises `TypeError`. -/
def pyIterate : FieldVal → Except PyErr (List FieldVal)
  | .strList l => .ok (l.map .str)
  | .str s => .ok (s.map fun c => .str [c])
  | .boolean _ => .error .typeError

/-- The rector-reading loop of the `detect_contradictions` branch: read each
id, keep the successful ones in order; a raised exception propagates. -/
def collectRectors (env : Backends) : List FieldVal → Except PyErr (List (List Char × Meta))
  | [] => .ok []
  | v :: vs =>
      match env.read_document v none with
      | .error e => .error e
      | .ok r =>
          match collectRectors env vs with
          | .error e => .error e
          | .ok rest => .ok (if r.success then (r.content, r.metadata) :: rest else rest)

/-- The `extract_key_terms` branch body: the same capitalized-phrase pattern,
deduplicated (`list(set(terms))[:30]` is display-ordered; the set and its card
are modelled). -/
def extractKeyTermsSet (content : List Char) : Finset (List Char) :=
  (findAll termPattern content).toFinset

/-- The `try` body of `_dispatch_tool`, in the source's evaluation order;
exceptions are values of the `Except` type, threaded by explicit matches. -/
def dispatchBody (env : Backends) (tool_name : List Char) (tool_input : ToolInput) :
    Except PyErr Payload :=
  if tool_name = "read_document".toList then
    match getItem tool_input "doc_id".toList with
    | .error e => .error e
    | .ok d =>
        match env.read_document d (tool_input.get? "section".toList) with
        | .error e => .error e
        | .ok r => .ok (.readRes r)
  else if tool_name = "list_documents".toList then
    env.list_documents (tool_input.get? "tipo".toList) (tool_input.get? "es_rector".toList)
      (tool_input.get? "institucion".toList)
  else if tool_name = "get_document_hierarchy".toList then
    match getItem tool_input "doc_id".toList with
    | .error e => .error e
    | .ok d => env.get_document_hierarchy d
  else if tool_name = "compare_documents".toList then
    match getItem tool_input "doc_id_1".toList with
    | .error e => .error e
    | .ok d1 =>
        match env.read_document d1 none with
        | .error e => .error e
        | .ok r1 =>
            match getItem tool_input "doc_id_2".toList with
            | .error e => .error e
            | .ok d2 =>
                match env.read_document d2 none with
                | .error e => .error e
                | .ok r2 =>
                    if ¬(r1.success ∧ r2.success) then
                      .ok (.errorPayload "No se pudieron leer los documentos".toList)
                    else
                      .ok (.comparison (compare_documents r1.content r2.content
                        (keywordVal ((tool_input.get? "comparison_type".toList).getD
                          (.str "full".toList)))))
  else if tool_name = "detect_contradictions".toList then
    match getItem tool_input "target_doc_id".toList with
    | .error e => .error e
    | .ok t =>
        match env.read_document t none with
        | .error e => .error e
        | .ok tr =>
            if ¬tr.success then
              .ok (.errorPayload ("No se pudo leer el documento ".toList ++ displayVal t))
            else
              match getItem tool_input "rector_doc_ids".toList with
              | .error e => .error e
              | .ok ids =>
                  match pyIterate ids with
                  | .error e => .error e
                  | .ok idList =>
                      match collectRectors env idList with
                      | .error e => .error e
                      | .ok rectors =>
                          .ok (.analysis (detect_contradictions tr.content tr.metadata rectors
                            (keywordVal ((tool_input.get? "sensitivity".toList).getD
                              (.str "moderate".toList)))))
  else if tool_name = "extract_key_terms".toList then
    match getItem tool_input "doc_id".toList with
    | .error e => .error e
    | .ok d =>
        match env.read_document d none with
        | .error e => .error e
        | .ok r =>
            if ¬r.success then
              .ok (.errorPayload "No se pudo leer el documento".toList)
            else
              .ok (.keyTerms d (extractKeyTermsSet r.content) (extractKeyTermsSet r.content).card)
  else
    .ok (.errorPayload ("Herramienta \x27".toList ++ tool_name ++ "\x27 no implementada".toList))

/-- `_dispatch_tool`: the catch-all `except` converts any exception into an
error payload; the dispatcher itself never raises (it is a total function). -/
def dispatch_tool (env : Backends) (tool_name : List Char) (tool_input : ToolInput) : Payload :=
  match dispatchBody env tool_name tool_input with
  | .ok p => p
  | .error e =>
      .errorPayload ("Error ejecutando ".toList ++ tool_name ++ ": ".toList ++ pyErrMsg e)

/-- A block of planner-response content. -/
inductive ContentBlock where
  | text (t : List Char)
  | toolUse (id : List Char) (name : List Char) (input : ToolInput)
  deriving DecidableEq

/-- `_execute_tools`: dispatch every `tool_use` block, producing
`tool_result` entries in order. -/
def execute_tools (env : Backends) (content : List ContentBlock) :
    List (List Char × Payload) :=
  content.filterMap fun b =>
    match b with
    | .text _ => none
    | .toolUse id name input => some (id, dispatch_tool env name input)

/-- `_extract_text`: the text blocks joined by newlines. -/
def extract_text (content : List ContentBlock) : List Char :=
  ((content.filterMap fun b => match b with | .text t => some t | _ => none).intersperse
    "\n".toList).flatten

/-- A message of the accumulated conversation. -/
inductive Message where
  | user (text : List Char)
  | assistant (content : List ContentBlock)
  | toolResults (results : List (List Char × Payload))
  deriving DecidableEq

/-- One planner (Claude API) response. -/
structure PlannerResponse where
  stop_reason : List Char
  content : List ContentBlock
  input_tokens : Nat
  output_tokens : Nat
  deriving DecidableEq

/-- One round-trip to the planner: either the call raises (any exception in
the iteration body) or it returns a response. -/
inductive PlannerStep where
  | raises (msg : List Char)
  | responds (resp : PlannerResponse)
  deriving DecidableEq

/-- One entry of `tool_use_log`. -/
structure LoopLogEntry where
  iteration : Nat
  stop_reason : List Char
  input_tokens : Nat
  output_tokens : Nat
  deriving DecidableEq, Repr

/-- The `status` strings returned by `_run_tool_use_loop`. -/
inductive LoopStatus where
  | completed | error | max_iterations_reached
  deriving DecidableEq, Repr

/-- The dict returned by `_run_tool_use_loop`. -/
structure LoopResult where
  status : LoopStatus
  result : Option (List Char)
  error : Option (List Char)
  iterations : Nat
  tool_use_log : List LoopLogEntry
  deriving DecidableEq

/-- The `while iteration < self.max_iterations` loop, with
`fuel = max_iterations - iteration` (so entering the body requires
`fuel > 0`, exactly the loop guard). -/
def run_tool_use_loop_aux (env : Backends) (planner : List Message → PlannerStep) :
    Nat → Nat → List Message → List LoopLogEntry → LoopResult
  | 0, iteration, _, log =>
      { status := .max_iterations_reached, result := none, error := none,
        iterations := iteration, tool_use_log := log }
  | fuel + 1, iteration, messages, log =>
      let iteration := iteration + 1
      match planner messages with
      | .raises msg =>
          { status := .error, result := none, error := some msg,
            iterations := iteration, tool_use_log := log }
      | .responds resp =>
          let log := log ++ [⟨iteration, resp.stop_reason, resp.input_tokens, resp.output_tokens⟩]
          if resp.stop_reason = "end_turn".toList then
            { status := .completed, result := some (extract_text resp.content), error := none,
              iterations := iteration, tool_use_log := log }
          else if resp.stop_reason = "tool_use".toList then
            let messages := messages ++ [.assistant resp.content]
            let results := execute_tools env resp.content
            let messages := messages ++ [.toolResults results]
            run_tool_use_loop_aux env planner fuel iteration messages log
          else
            run_tool_use_loop_aux env planner fuel iteration messages log

/-- `self.max_iterations` (set in `__init__`). -/
def max_iterations : Nat := 15

/-- `_run_tool_use_loop` from the initial messages. -/
def run_tool_use_loop (env : Backends) (planner : List Message → PlannerStep)
    (messages : List Message) : LoopResult :=
  run_tool_use_loop_aux env planner max_iterations 0 messages []

/-! ### Spec-side definitions and concrete inputs used by the claims -/

/-- Modelled from the spec (§4.4, claim C5): the fixed base-severity table
(period and currency types high; percentage and permission medium; obligation,
prohibition and denial critical; authorization high), then exactly two
escalations in order: medium with rank distance above 2 becomes high; high
under strict sensitivity becomes critical. -/
def spec_severity (fact_type : PatternType) (target_rank governing_rank : Int)
    (sensitivity : List Char) : Severity :=
  let base : Severity :=
    match fact_type with
    | .plazo_dias | .plazo_meses | .plazo_anos | .monto_soles | .monto_dolares => .high
    | .porcentaje | .opcion => .medium
    | .obligacion | .prohibicion | .deniega => .critical
    | .autoriza => .high
  let escalated := if base = .medium ∧ target_rank - governing_rank > 2 then Severity.high else base
  if escalated = .high ∧ sensitivity = "strict".toList then .critical else escalated

/-- Modelled from the spec (§4.5, claim C1): the penalty counts every reported
item — the contradictions and the warnings alike — at 0.20 per critical, 0.10
per high, 0.05 per any other item; score `max(0, 1 - penalty/max(checks,1))`
rounded to three decimals, and exactly 1.0 when there is nothing to check. -/
def spec_compliance_score (contradictions warnings : List Contradiction)
    (total_checks : Nat) : ℚ :=
  if total_checks = 0 then 1
  else
    let penalty := ((contradictions ++ warnings).map fun c =>
      if c.severity = .critical then (1/5 : ℚ)
      else if c.severity = .high then 1/10
      else 1/20).sum
    round3 (maxQ 0 (1 - penalty / ((Nat.max total_checks 1 : Nat) : ℚ)))

/-- The worked example's target document (the analyzer's own test text). -/
def exTarget : List Char :=
  "\n    La unidad otorga un plazo de 30 días para la respuesta.\n    El presupuesto máximo autorizado es de $5,000 dólares.\n    Los usuarios pueden opcionalmente usar autenticación multifactor.\n    ".toList

def exTargetMeta : Meta := ⟨some "DIR_TEST_001".toList, some 4⟩

/-- The worked example's governing document. -/
def exRector : List Char :=
  "\n    Todas las entidades deben otorgar un plazo mínimo de 45 días.\n    El presupuesto autorizado no debe exceder $10,000 dólares.\n    La autenticación multifactor es obligatoria para todos los usuarios.\n    ".toList

def exRectorMeta : Meta := ⟨some "LEY_RECTOR_001".toList, some 1⟩

/-- The analysis the source's test block runs: moderate sensitivity. -/
def exAnalysis : AnalysisResult :=
  detect_contradictions exTarget exTargetMeta [(exRector, exRectorMeta)] "moderate".toList

/-- C7 counterexample inputs: difflib's Ratcliff–Obershelp ratio is
order-sensitive on these classic strings. -/
def gestaltA : List Char := "GESTALT PATTERN MATCHING".toList

def gestaltB : List Char := "GESTALT PRACTICE".toList

/-- The same two character sequences laid out one character per line, to
exercise the line-sequence ratio of `_compare_structure`. -/
def gestaltLinesA : List Char :=
  "G\nE\nS\nT\nA\nL\nT\nP\nA\nT\nT\nE\nR\nN\nM\nA\nT\nC\nH\nI\nN\nG".toList

def gestaltLinesB : List Char := "G\nE\nS\nT\nA\nL\nT\nP\nR\nA\nC\nT\nI\nC\nE".toList

/-- A reader stub for concrete loop runs: every read fails benignly. -/
def demoEnv : Backends where
  read_document := fun _ _ => .ok ⟨false, [], ⟨none, none⟩⟩
  list_documents := fun _ _ _ => .ok (.listing [])
  get_document_hierarchy := fun _ => .ok (.hierarchy [])

/-- A planner that asks for tools forever (its replies never signal
completion). -/
def loopForeverPlanner : List Message → PlannerStep :=
  fun _ => .responds ⟨"tool_use".toList, [], 0, 0⟩

/-- The catalog names `_dispatch_tool` recognises. -/
def knownTools : List (List Char) :=
  ["read_document".toList, "list_documents".toList, "get_document_hierarchy".toList,
   "compare_documents".toList, "detect_contradictions".toList, "extract_key_terms".toList]

/-- The input fields each branch of `_dispatch_tool` subscripts (a missing one
raises `KeyError` inside the guarded body). -/
def requiredFields (tool_name : List Char) : List (List Char) :=
  if tool_name = "read_document".toList then ["doc_id".toList]
  else if tool_name = "list_documents".toList then []
  else if tool_name = "get_document_hierarchy".toList then ["doc_id".toList]
  else if tool_name = "compare_documents".toList then ["doc_id_1".toList, "doc_id_2".toList]
  else if tool_name = "detect_contradictions".toList then
    ["target_doc_id".toList, "rector_doc_ids".toList]
  else if tool_name = "extract_key_terms".toList then ["doc_id".toList]
  else []

/-! ### Shared lemmas -/

theorem parseNum?_nonneg (s : List Char) (q : ℚ) (h : parseNum? s = some q) : 0 ≤ q := by
  unfold parseNum? at h
  simp only at h
  split at h
  · exact absurd h (by simp)
  · split at h
    · cases h
      positivity
    · rename_i rest heq
      split at h
      · cases h
        positivity
      · exact absurd h (by simp)
    · exact absurd h (by simp)

theorem maxQ_eq_max (a b : ℚ) : maxQ a b = max a b := by
  unfold maxQ
  rcases lt_or_ge a b with h | h
  · rw [if_pos h, max_eq_right h.le]
  · rw [if_neg (not_lt.mpr h), max_eq_left h]

theorem values_conflict_autoriza (tv rv s : List Char) :
    values_conflict tv rv .autoriza s = false := by
  unfold values_conflict
  rw [if_neg (by decide), if_neg (by decide), if_neg (by decide)]

theorem values_conflict_deniega (tv rv s : List Char) :
    values_conflict tv rv .deniega s = false := by
  unfold values_conflict
  rw [if_neg (by decide), if_neg (by decide), if_neg (by decide)]

/-- Every reported record carries a value pair that `values_conflict` accepted
for its fact type. -/
theorem mem_records_conflict {td : List (PatternType × List ExtractedVal)} {tm : Meta}
    {rd : List ((List (PatternType × List ExtractedVal)) × Meta)} {s : List Char}
    {c : Contradiction} (h : c ∈ all_conflict_records td tm rd s) :
    values_conflict c.target_value c.rector_value c.ctype s = true := by
  unfold all_conflict_records at h
  rw [List.mem_flatMap] at h
  obtain ⟨rdp, _, h⟩ := h
  rw [List.mem_flatMap] at h
  obtain ⟨tdp, _, h⟩ := h
  cases hl : rdp.1.lookup tdp.1 with
  | none => rw [hl] at h; simp at h
  | some rvs =>
      rw [hl] at h
      rw [List.mem_map] at h
      obtain ⟨rc, hrc, rfl⟩ := h
      unfold compare_values at hrc
      rw [List.mem_flatMap] at hrc
      obtain ⟨tv, _, hrc⟩ := hrc
      rw [List.mem_filterMap] at hrc
      obtain ⟨rv, _, hif⟩ := hrc
      split at hif
      · rename_i hvc
        cases hif
        simpa using hvc
      · cases hif

/-- Characterization of the numeric branch of `_values_conflict`. -/
theorem values_conflict_numeric_eq (tv rv : List Char) (pt : PatternType)
    (h1 : pt ∈ [PatternType.plazo_dias, .plazo_meses, .plazo_anos, .porcentaje]) (s : List Char) :
    values_conflict tv rv pt s =
      match parseNum? tv, parseNum? rv with
      | some t, some r =>
          if s = "strict".toList then decide (t ≠ r)
          else if s = "moderate".toList then decide (|t - r| > r * (1/10))
          else decide (|t - r| > r * (1/5))
      | _, _ => false := by
  unfold values_conflict
  rw [if_pos h1]

/-- Characterization of the currency branch of `_values_conflict`. -/
theorem values_conflict_monto_eq (tv rv : List Char) (pt : PatternType)
    (h2 : pt ∈ [PatternType.monto_soles, .monto_dolares]) (s : List Char) :
    values_conflict tv rv pt s =
      match parseNum? (stripCommas tv), parseNum? (stripCommas rv) with
      | some t, some r =>
          if s = "strict".toList then decide (t ≠ r)
          else decide (|t - r| > r * (1/20))
      | _, _ => false := by
  unfold values_conflict
  simp only [List.mem_cons, List.not_mem_nil, or_false] at h2
  rcases h2 with rfl | rfl <;> rw [if_neg (by decide), if_pos (by decide)]

/-- Characterization of the modality branch of `_values_conflict`:
sensitivity plays no role there. -/
theorem values_conflict_modality_eq (tv rv : List Char) (pt : PatternType)
    (h3 : pt ∈ [PatternType.obligacion, .prohibicion, .opcion]) (s : List Char) :
    values_conflict tv rv pt s =
      opposites.any fun kv =>
        substrIn kv.1 (tv.map lowerChar) ∧
        kv.2.any fun opp => substrIn opp (rv.map lowerChar) := by
  unfold values_conflict
  simp only [List.mem_cons, List.not_mem_nil, or_false] at h3
  rcases h3 with rfl | rfl | rfl <;>
    rw [if_neg (by decide), if_neg (by decide), if_pos (by decide)]

theorem length_filter_partition {α : Type} (p : α → Prop) [DecidablePred p] (l : List α) :
    (l.filter fun a => p a).length + (l.filter fun a => ¬ p a).length = l.length := by
  induction l with
  | nil => rfl
  | cons a t ih =>
      by_cases h : p a <;> simp [List.filter_cons, h, ← ih] <;> omega

theorem foldl_add_eq_sum (f : Contradiction → ℚ) (l : List Contradiction) (a : ℚ) :
    l.foldl (fun p c => p + f c) a = a + (l.map f).sum := by
  induction l generalizing a with
  | nil => simp
  | cons c t ih => simp [List.foldl_cons, ih, add_assoc]

/-! ### Claim C3 -/

/-- C3: for day-period, month-period, year-period and percentage fact types,
both values are parsed as reals; under strict sensitivity the pair conflicts
iff the numbers are unequal, under moderate iff the absolute difference
exceeds 10% of the governing value, under flexible iff it exceeds 20%; a pair
with an unparseable member never conflicts. -/
theorem C3_numeric_conflict_rule (tv rv : List Char) :
    ∀ pt ∈ [PatternType.plazo_dias, .plazo_meses, .plazo_anos, .porcentaje],
      (values_conflict tv rv pt "strict".toList =
        match parseNum? tv, parseNum? rv with
        | some t, some r => decide (t ≠ r)
        | _, _ => false) ∧
      (values_conflict tv rv pt "moderate".toList =
        match parseNum? tv, parseNum? rv with
        | some t, some r => decide (|t - r| > (1/10 : ℚ) * r)
        | _, _ => false) ∧
      (values_conflict tv rv pt "flexible".toList =
        match parseNum? tv, parseNum? rv with
        | some t, some r => decide (|t - r| > (1/5 : ℚ) * r)
        | _, _ => false) := by
  intro pt hpt
  unfold values_conflict
  simp only [List.mem_cons, List.not_mem_nil, or_false] at hpt
  rcases hpt with rfl | rfl | rfl | rfl <;>
    refine ⟨?_, ?_, ?_⟩ <;>
    · rw [if_pos (by decide)]
      cases parseNum? tv <;> cases parseNum? rv <;>
        simp [mul_comm, decide_eq_true_eq]

theorem C3_witness :
    values_conflict "30".toList "45".toList .plazo_dias "moderate".toList = true := by
  have h := (C3_numeric_conflict_rule "30".toList "45".toList .plazo_dias (by decide)).2.1
  rw [h]
  decide

/-! ### Claim C4 -/

/-- C4: for the two currency fact types, commas are stripped before parsing;
under strict sensitivity the pair conflicts iff unequal, and under both
moderate and flexible (and any other tier) iff the absolute difference
exceeds 5% of the governing value; unparseable values never conflict. -/
theorem C4_currency_conflict_rule (tv rv : List Char) :
    ∀ pt ∈ [PatternType.monto_soles, .monto_dolares],
      (values_conflict tv rv pt "strict".toList =
        match parseNum? (stripCommas tv), parseNum? (stripCommas rv) with
        | some t, some r => decide (t ≠ r)
        | _, _ => false) ∧
      ∀ s ∈ ["moderate".toList, "flexible".toList],
        values_conflict tv rv pt s =
          match parseNum? (stripCommas tv), parseNum? (stripCommas rv) with
          | some t, some r => decide (|t - r| > (1/20 : ℚ) * r)
          | _, _ => false := by
  intro pt hpt
  have main : ∀ s : List Char, s ≠ "strict".toList →
      values_conflict tv rv pt s =
        match parseNum? (stripCommas tv), parseNum? (stripCommas rv) with
        | some t, some r => decide (|t - r| > (1/20 : ℚ) * r)
        | _, _ => false := by
    intro s hs
    rw [values_conflict_monto_eq tv rv pt hpt s]
    cases parseNum? (stripCommas tv) with
    | none => rfl
    | some t =>
        cases parseNum? (stripCommas rv) with
        | none => rfl
        | some r =>
            dsimp only
            rw [if_neg hs, mul_comm r ((1:ℚ)/20)]
  refine ⟨?_, ?_⟩
  · rw [values_conflict_monto_eq tv rv pt hpt]
    cases parseNum? (stripCommas tv) with
    | none => rfl
    | some t =>
        cases parseNum? (stripCommas rv) with
        | none => rfl
        | some r =>
            dsimp only
            rw [if_pos rfl]
  · intro s hs
    simp only [List.mem_cons, List.not_mem_nil, or_false] at hs
    rcases hs with rfl | rfl <;> exact main _ (by decide)

theorem C4_witness :
    values_conflict "5,000".toList "10,000".toList .monto_dolares "moderate".toList = true := by
  have h := ((C4_currency_conflict_rule "5,000".toList "10,000".toList .monto_dolares
    (by decide)).2 "moderate".toList (by decide))
  rw [h]
  decide

/-! ### Claim C6 -/

theorem abs_gt_imp_ne {t r : ℚ} (hr : 0 ≤ r) (k : ℚ) (hk : 0 ≤ k) (h : |t - r| > r * k) :
    t ≠ r := by
  intro he
  rw [he, sub_self, abs_zero] at h
  nlinarith

/-- C6: conflict detection is monotone in sensitivity — every conflict found
under flexible is found under moderate, and every conflict found under
moderate is found under strict, for every value pair and fact type. -/
theorem numeric_shape_mono (tv rv : List Char) (pt : PatternType)
    (h1 : pt ∈ [PatternType.plazo_dias, .plazo_meses, .plazo_anos, .porcentaje]) :
    (values_conflict tv rv pt "moderate".toList = true →
      values_conflict tv rv pt "strict".toList = true) ∧
    (values_conflict tv rv pt "flexible".toList = true →
      values_conflict tv rv pt "moderate".toList = true) := by
  simp only [values_conflict_numeric_eq tv rv pt h1]
  cases hp : parseNum? tv with
  | none => simp
  | some t =>
      cases hq : parseNum? rv with
      | none => simp
      | some r =>
          have hr : 0 ≤ r := parseNum?_nonneg rv r hq
          constructor
          · show decide (|t - r| > r * (1/10)) = true → decide (t ≠ r) = true
            simp only [decide_eq_true_eq]
            exact fun h => abs_gt_imp_ne hr _ (by norm_num) h
          · show decide (|t - r| > r * (1/5)) = true → decide (|t - r| > r * (1/10)) = true
            simp only [decide_eq_true_eq]
            intro h
            linarith

theorem monto_shape_mono (tv rv : List Char) (pt : PatternType)
    (h2 : pt ∈ [PatternType.monto_soles, .monto_dolares]) :
    (values_conflict tv rv pt "moderate".toList = true →
      values_conflict tv rv pt "strict".toList = true) ∧
    (values_conflict tv rv pt "flexible".toList = true →
      values_conflict tv rv pt "moderate".toList = true) := by
  simp only [values_conflict_monto_eq tv rv pt h2]
  cases hp : parseNum? (stripCommas tv) with
  | none => simp
  | some t =>
      cases hq : parseNum? (stripCommas rv) with
      | none => simp
      | some r =>
          have hr : 0 ≤ r := parseNum?_nonneg _ r hq
          constructor
          · show decide (|t - r| > r * (1/20)) = true → decide (t ≠ r) = true
            simp only [decide_eq_true_eq]
            exact fun h => abs_gt_imp_ne hr _ (by norm_num) h
          · exact fun h => h

/-- C6: conflict detection is monotone in sensitivity — every conflict found
under flexible is found under moderate, and every conflict found under
moderate is found under strict, for every value pair and fact type. -/
theorem C6_sensitivity_monotone (tv rv : List Char) (pt : PatternType) :
    (values_conflict tv rv pt "moderate".toList = true →
      values_conflict tv rv pt "strict".toList = true) ∧
    (values_conflict tv rv pt "flexible".toList = true →
      values_conflict tv rv pt "moderate".toList = true) := by
  cases pt
  case autoriza => simp [values_conflict_autoriza]
  case deniega => simp [values_conflict_deniega]
  case monto_soles => exact monto_shape_mono tv rv _ (by decide)
  case monto_dolares => exact monto_shape_mono tv rv _ (by decide)
  case obligacion =>
    rw [values_conflict_modality_eq tv rv _ (by decide), values_conflict_modality_eq tv rv _ (by decide),
      values_conflict_modality_eq tv rv _ (by decide)]
    exact ⟨fun h => h, fun h => h⟩
  case prohibicion =>
    rw [values_conflict_modality_eq tv rv _ (by decide), values_conflict_modality_eq tv rv _ (by decide),
      values_conflict_modality_eq tv rv _ (by decide)]
    exact ⟨fun h => h, fun h => h⟩
  case opcion =>
    rw [values_conflict_modality_eq tv rv _ (by decide), values_conflict_modality_eq tv rv _ (by decide),
      values_conflict_modality_eq tv rv _ (by decide)]
    exact ⟨fun h => h, fun h => h⟩
  all_goals exact numeric_shape_mono tv rv _ (by decide)

theorem C6_witness :
    values_conflict "30".toList "45".toList .plazo_dias "strict".toList = true :=
  (C6_sensitivity_monotone "30".toList "45".toList .plazo_dias).1 (by decide)

/-! ### Claim C10 -/

/-- C10: the authorization-marker and denial-marker fact types can never
conflict — `values_conflict` falls through to `False` for them under every
sensitivity, so no contradiction or warning of those types is ever reported —
even though the severity table assigns them high and critical severity. -/
theorem C10_authorization_denial_inert :
    (∀ tv rv s, values_conflict tv rv .autoriza s = false ∧
       values_conflict tv rv .deniega s = false) ∧
    severity_weights .autoriza = .high ∧
    severity_weights .deniega = .critical ∧
    ∀ td tm rd s,
      (((detect_from_data td tm rd s).contradictions ++
        (detect_from_data td tm rd s).warnings).all fun c =>
          c.ctype ≠ .autoriza ∧ c.ctype ≠ .deniega) = true := by
  refine ⟨fun tv rv s => ⟨values_conflict_autoriza tv rv s, values_conflict_deniega tv rv s⟩,
    rfl, rfl, fun td tm rd s => ?_⟩
  rw [List.all_eq_true]
  intro c hc
  have hmem : c ∈ all_conflict_records td tm rd s := by
    rw [List.mem_append] at hc
    unfold detect_from_data at hc
    rcases hc with hc | hc <;> exact (List.mem_filter.mp hc).1
  have hvc := mem_records_conflict hmem
  simp only [decide_eq_true_eq, ne_eq]
  constructor
  · intro h
    rw [h, values_conflict_autoriza] at hvc
    cases hvc
  · intro h
    rw [h, values_conflict_deniega] at hvc
    cases hvc

/-! ### Claim C5 -/

/-- C5: the severity classifier computes exactly the spec's table-plus-two-
escalations function, and the detector routes every conflict by the result:
critical and high conflicts go to the contradictions list, every other
conflict only to the warnings list, and together the two lists carry every
generated conflict record. -/
theorem C5_severity_and_routing :
    (∀ pt tl rl s, calculate_severity pt tl rl s = spec_severity pt tl rl s) ∧
    (∀ td tm rd s,
      ((detect_from_data td tm rd s).contradictions.all fun c =>
        c.severity = .critical ∨ c.severity = .high) = true ∧
      ((detect_from_data td tm rd s).warnings.all fun c =>
        ¬(c.severity = .critical ∨ c.severity = .high)) = true ∧
      (detect_from_data td tm rd s).contradictions_found +
        (detect_from_data td tm rd s).warnings_found =
        (all_conflict_records td tm rd s).length) := by
  constructor
  · intro pt tl rl s
    unfold calculate_severity spec_severity
    cases pt <;> simp [severity_weights, and_comm]
  · intro td tm rd s
    refine ⟨?_, ?_, ?_⟩
    · rw [List.all_eq_true]
      intro c hc
      have := (List.mem_filter.mp hc).2
      simpa using this
    · rw [List.all_eq_true]
      intro c hc
      have := (List.mem_filter.mp hc).2
      simpa using this
    · exact length_filter_partition _ (all_conflict_records td tm rd s)

/-! ### Claim C1 -/

/-- C1 counterexample: a target containing only `50%` checked against a
governing document containing `80%` under moderate sensitivity produces one
medium-severity warning and no contradictions; the code scores it 1.0, while
the spec's formula — which charges 0.05 for the warning — scores it 0.95. -/
theorem C1_counterexample :
    (detect_contradictions "50%".toList ⟨some "T".toList, some 2⟩
      [("80%".toList, ⟨some "R".toList, some 1⟩)] "moderate".toList).compliance_score = 1 ∧
    (detect_contradictions "50%".toList ⟨some "T".toList, some 2⟩
      [("80%".toList, ⟨some "R".toList, some 1⟩)] "moderate".toList).warnings_found = 1 ∧
    spec_compliance_score
      (detect_contradictions "50%".toList ⟨some "T".toList, some 2⟩
        [("80%".toList, ⟨some "R".toList, some 1⟩)] "moderate".toList).contradictions
      (detect_contradictions "50%".toList ⟨some "T".toList, some 2⟩
        [("80%".toList, ⟨some "R".toList, some 1⟩)] "moderate".toList).warnings 1 = 19/20 := by
  decide

/-- C1 amended: the compliance score is the spec formula with the penalty
accumulated over the contradictions list only — 0.20 per critical and 0.10 per
high contradiction (0.05 per other contradiction-list item, of which there are
none) — while warnings contribute nothing; `total_checks` is the number of
extracted fact types times the number of governing documents, and a zero
`total_checks` scores exactly 1.0. -/
theorem C1_amended (td : List (PatternType × List ExtractedVal)) (tm : Meta)
    (rd : List ((List (PatternType × List ExtractedVal)) × Meta)) (s : List Char) :
    (detect_from_data td tm rd s).compliance_score =
      round3 (if td.length * rd.length = 0 then 1
        else maxQ 0 (1 - ((detect_from_data td tm rd s).contradictions.map fun c =>
            if c.severity = .critical then (1/5 : ℚ)
            else if c.severity = .high then 1/10
            else 1/20).sum / ((Nat.max (td.length * rd.length) 1 : Nat) : ℚ))) := by
  unfold detect_from_data
  simp only
  rw [contradiction_penalty, foldl_add_eq_sum]
  rcases Nat.eq_zero_or_pos (td.length * rd.length) with h | h
  · rw [if_neg (by omega), if_pos h]
  · rw [if_pos h, if_neg (by omega), zero_add]

/-! ### Claim C2 -/

/-- C2 counterexample: on the worked example the code reports exactly a
day-period and a dollar-amount contradiction and nothing else — in particular
no modality conflict between "opcional" and "obligatoria" (the governing text
has no permission-type match, so that pair is never compared), refuting the
claimed third conflict. -/
theorem C2_counterexample :
    (exAnalysis.contradictions.map fun c => c.ctype) =
      [PatternType.plazo_dias, .monto_dolares] ∧
    exAnalysis.warnings = [] := by
  decide

/-- C2 amended: the worked example yields exactly one day-period contradiction
(30 vs 45) and one dollar-currency contradiction (5,000 vs 10,000), both of
high severity, no modality conflict and no warnings, and compliance score
0.95, strictly below 1.0. -/
theorem C2_amended :
    (exAnalysis.contradictions.map fun c =>
      (c.ctype, c.target_value, c.rector_value, c.severity)) =
      [(PatternType.plazo_dias, "30".toList, "45".toList, Severity.high),
       (PatternType.monto_dolares, "5,000".toList, "10,000".toList, Severity.high)] ∧
    exAnalysis.warnings_found = 0 ∧
    exAnalysis.compliance_score = 19/20 ∧
    exAnalysis.compliance_score < 1 := by
  decide

/-! ### Claim C7 -/

/-- C2-style closed refutation of C7: both SequenceMatcher-based ratios — the
whole-text similarity of the full comparison and the line-sequence similarity
of the structure comparison — change when the two documents are swapped
(0.6 vs 0.65, and 0.595 vs 0.649). -/
theorem C7_counterexample :
    (compare_full gestaltA gestaltB).text_similarity = 3/5 ∧
    (compare_full gestaltB gestaltA).text_similarity = 13/20 ∧
    (compare_structure gestaltLinesA gestaltLinesB).structure_similarity = 119/200 ∧
    (compare_structure gestaltLinesB gestaltLinesA).structure_similarity = 649/1000 := by
  decide

/-- C7 amended: of the three ratios the claim names, the terminology
similarity is symmetric (it is a function of term sets); the structure and
full-text ratios are SequenceMatcher-based and not symmetric in general. -/
theorem C7_amended (doc1 doc2 : List Char) :
    (compare_terminology doc1 doc2).terminology_similarity =
      (compare_terminology doc2 doc1).terminology_similarity := by
  unfold compare_terminology
  dsimp only
  rw [Finset.inter_comm (termSet doc1) (termSet doc2),
    Finset.union_comm (termSet doc1) (termSet doc2)]

/-! ### Claim C8 -/

/-- Loop invariant: from iteration counter `i` with `fuel` budget left, the
loop performs at most `fuel` more round-trips; if it ends exhausted it used
the whole budget and its log extends the accumulated one with consecutively
numbered entries. -/
theorem run_tool_use_loop_aux_spec (env : Backends) (planner : List Message → PlannerStep) :
    ∀ fuel iteration messages log,
      (run_tool_use_loop_aux env planner fuel iteration messages log).iterations ≤
        iteration + fuel ∧
      ((run_tool_use_loop_aux env planner fuel iteration messages log).status =
          .max_iterations_reached →
        (run_tool_use_loop_aux env planner fuel iteration messages log).iterations =
          iteration + fuel ∧
        (run_tool_use_loop_aux env planner fuel iteration messages log).tool_use_log.map
            (fun e => e.iteration) =
          log.map (fun e => e.iteration) ++ List.range' (iteration + 1) fuel) := by
  intro fuel
  induction fuel with
  | zero =>
      intro iteration messages log
      refine ⟨Nat.le_refl _, fun _ => ⟨rfl, ?_⟩⟩
      show (log.map fun e => e.iteration) =
        (log.map fun e => e.iteration) ++ List.range' (iteration + 1) 0
      simp
  | succ fuel ih =>
      intro iteration messages log
      cases hp : planner messages with
      | raises msg =>
          simp only [run_tool_use_loop_aux, hp]
          refine ⟨?_, fun h => by cases h⟩
          show iteration + 1 ≤ iteration + (fuel + 1)
          omega
      | responds resp =>
          simp only [run_tool_use_loop_aux, hp]
          by_cases he : resp.stop_reason = "end_turn".toList
          · rw [if_pos he]
            refine ⟨?_, fun h => by cases h⟩
            show iteration + 1 ≤ iteration + (fuel + 1)
            omega
          · rw [if_neg he]
            by_cases ht : resp.stop_reason = "tool_use".toList
            · rw [if_pos ht]
              have h := ih (iteration + 1)
                (messages ++ [Message.assistant resp.content] ++
                  [Message.toolResults (execute_tools env resp.content)])
                (log ++ [⟨iteration + 1, resp.stop_reason, resp.input_tokens, resp.output_tokens⟩])
              have h1 := h.1
              refine ⟨by omega, fun hst => ?_⟩
              have h21 := (h.2 hst).1
              refine ⟨by omega, ?_⟩
              rw [(h.2 hst).2, List.map_append]
              simp [List.range'_succ]
            · rw [if_neg ht]
              have h := ih (iteration + 1) messages
                (log ++ [⟨iteration + 1, resp.stop_reason, resp.input_tokens, resp.output_tokens⟩])
              have h1 := h.1
              refine ⟨by omega, fun hst => ?_⟩
              have h21 := (h.2 hst).1
              refine ⟨by omega, ?_⟩
              rw [(h.2 hst).2, List.map_append]
              simp [List.range'_succ]

/-- C8: for every planner behaviour the loop performs at most 15 round-trips
(the iteration counter of the result never exceeds the ceiling, and every log
entry is numbered within it), and when the ceiling is reached without a
completion signal the result is the exhausted status carrying the log of all
15 iterations in order. -/
theorem C8_loop_bounded (env : Backends) (planner : List Message → PlannerStep)
    (messages : List Message) :
    (run_tool_use_loop env planner messages).iterations ≤ 15 ∧
    ((run_tool_use_loop env planner messages).status = .max_iterations_reached →
      (run_tool_use_loop env planner messages).iterations = 15 ∧
      (run_tool_use_loop env planner messages).tool_use_log.map (fun e => e.iteration) =
        List.range' 1 15) := by
  have h := run_tool_use_loop_aux_spec env planner max_iterations 0 messages []
  unfold run_tool_use_loop
  refine ⟨h.1, fun hst => ⟨(h.2 hst).1, ?_⟩⟩
  have h2 := (h.2 hst).2
  simpa using h2

theorem C8_witness :
    (run_tool_use_loop demoEnv loopForeverPlanner []).iterations = 15 ∧
    (run_tool_use_loop demoEnv loopForeverPlanner []).tool_use_log.map (fun e => e.iteration) =
      List.range' 1 15 :=
  (C8_loop_bounded demoEnv loopForeverPlanner []).2 (by decide)

/-! ### Claim C9 -/

/-- If every planner reply asks for tools, the loop never terminates early. -/
theorem loop_aux_all_tool_use (env : Backends) (planner : List Message → PlannerStep)
    (hp : ∀ ms, ∃ resp, planner ms = .responds resp ∧ resp.stop_reason = "tool_use".toList) :
    ∀ fuel iteration messages log,
      (run_tool_use_loop_aux env planner fuel iteration messages log).status =
        .max_iterations_reached := by
  intro fuel
  induction fuel with
  | zero => intro iteration messages log; rfl
  | succ fuel ih =>
      intro iteration messages log
      obtain ⟨resp, hresp, hstop⟩ := hp messages
      simp only [run_tool_use_loop_aux, hresp]
      rw [if_neg (by rw [hstop]; decide), if_pos hstop]
      exact ih _ _ _

/-- C9: inside the dispatch loop, an unknown operation name returns the
not-implemented error payload; a missing required field of a known operation
yields an error payload as that operation's result; any exception escaping an
operation body is converted by the catch-all into an error payload (the
dispatcher is a total function); each requested operation's payload — error
payloads included — is returned as that operation's result in order; and a
planner that keeps requesting operations drives the loop through all 15
iterations to the exhausted state, never a failure. -/
theorem C9_dispatch_error_handling (env : Backends) :
    (∀ tool_name input, tool_name ∉ knownTools →
      dispatch_tool env tool_name input =
        .errorPayload ("Herramienta \x27".toList ++ tool_name ++ "\x27 no implementada".toList)) ∧
    (∀ tool_name input, tool_name ∈ knownTools →
      (∃ k, k ∈ requiredFields tool_name ∧ input.get? k = none) →
      (dispatch_tool env tool_name input).isError = true) ∧
    (∀ tool_name input e, dispatchBody env tool_name input = .error e →
      (dispatch_tool env tool_name input).isError = true) ∧
    (∀ id tool_name input rest,
      execute_tools env (.toolUse id tool_name input :: rest) =
        (id, dispatch_tool env tool_name input) :: execute_tools env rest) ∧
    (∀ planner messages,
      (∀ ms, ∃ resp, planner ms = .responds resp ∧ resp.stop_reason = "tool_use".toList) →
      (run_tool_use_loop env planner messages).status = .max_iterations_reached ∧
      (run_tool_use_loop env planner messages).iterations = 15) := by
  refine ⟨?_, ?_, ?_, ?_, ?_⟩
  · intro tool_name input hn
    simp only [knownTools, List.mem_cons, List.not_mem_nil, or_false, not_or] at hn
    obtain ⟨h1, h2, h3, h4, h5, h6⟩ := hn
    unfold dispatch_tool dispatchBody
    rw [if_neg h1, if_neg h2, if_neg h3, if_neg h4, if_neg h5, if_neg h6]
  · intro tool_name input hn hk
    obtain ⟨k, hkmem, hknone⟩ := hk
    simp only [knownTools, List.mem_cons, List.not_mem_nil, or_false] at hn
    unfold dispatch_tool dispatchBody
    rcases hn with rfl | rfl | rfl | rfl | rfl | rfl
    · rw [show requiredFields "read_document".toList = ["doc_id".toList] from rfl,
        List.mem_singleton] at hkmem
      subst hkmem
      rw [if_pos rfl]
      simp only [getItem, hknone]
      rfl
    · rw [show requiredFields "list_documents".toList = [] from rfl] at hkmem
      exact absurd hkmem (List.not_mem_nil k)
    · rw [show requiredFields "get_document_hierarchy".toList = ["doc_id".toList] from rfl,
        List.mem_singleton] at hkmem
      subst hkmem
      rw [if_neg (by decide), if_neg (by decide), if_pos rfl]
      simp only [getItem, hknone]
      rfl
    · rw [show requiredFields "compare_documents".toList =
          ["doc_id_1".toList, "doc_id_2".toList] from rfl] at hkmem
      simp only [List.mem_cons, List.not_mem_nil, or_false] at hkmem
      rw [if_neg (by decide), if_neg (by decide), if_neg (by decide), if_pos rfl]
      rcases hkmem with rfl | rfl
      · simp only [getItem, hknone]
        rfl
      · cases h1 : input.get? "doc_id_1".toList with
        | none =>
            simp only [getItem, h1, hknone]
            rfl
        | some d1 =>
            cases hr : env.read_document d1 none with
            | error e =>
                simp only [getItem, h1, hr, hknone]
                rfl
            | ok r1 =>
                simp only [getItem, h1, hr, hknone]
                rfl
    · rw [show requiredFields "detect_contradictions".toList =
          ["target_doc_id".toList, "rector_doc_ids".toList] from rfl] at hkmem
      simp only [List.mem_cons, List.not_mem_nil, or_false] at hkmem
      rw [if_neg (by decide), if_neg (by decide), if_neg (by decide), if_neg (by decide),
        if_pos rfl]
      rcases hkmem with rfl | rfl
      · simp only [getItem, hknone]
        rfl
      · cases h1 : input.get? "target_doc_id".toList with
        | none =>
            simp only [getItem, h1, hknone]
            rfl
        | some t =>
            cases hr : env.read_document t none with
            | error e =>
                simp only [getItem, h1, hr, hknone]
                rfl
            | ok tr =>
                cases hs : tr.success with
                | true =>
                    simp only [getItem, h1, hr, hs, hknone]
                    rw [if_neg (by simp)]
                    simp only [getItem, hknone]
                    rfl
                | false =>
                    simp only [getItem, h1, hr, hs, hknone]
                    rw [if_pos (by simp)]
                    rfl
    · rw [show requiredFields "extract_key_terms".toList = ["doc_id".toList] from rfl,
        List.mem_singleton] at hkmem
      subst hkmem
      rw [if_neg (by decide), if_neg (by decide), if_neg (by decide), if_neg (by decide),
        if_neg (by decide), if_pos rfl]
      simp only [getItem, hknone]
      rfl
  · intro tool_name input e he
    unfold dispatch_tool
    rw [he]
    rfl
  · intro id tool_name input rest
    rfl
  · intro planner messages hp
    constructor
    · exact loop_aux_all_tool_use env planner hp max_iterations 0 messages []
    · exact (run_tool_use_loop_aux_spec env planner max_iterations 0 messages []).2
        (loop_aux_all_tool_use env planner hp max_iterations 0 messages []) |>.1

theorem C9_witness :
    dispatch_tool demoEnv "made_up_op".toList ⟨[]⟩ =
      .errorPayload ("Herramienta \x27".toList ++ "made_up_op".toList ++
        "\x27 no implementada".toList) ∧
    (dispatch_tool demoEnv "read_document".toList ⟨[]⟩).isError = true ∧
    (run_tool_use_loop demoEnv loopForeverPlanner []).status = .max_iterations_reached := by
  refine ⟨?_, ?_, ?_⟩
  · exact (C9_dispatch_error_handling demoEnv).1 _ _ (by decide)
  · exact (C9_dispatch_error_handling demoEnv).2.1 _ _ (by decide)
      ⟨"doc_id".toList, by decide, by decide⟩
  · exact ((C9_dispatch_error_handling demoEnv).2.2.2.2 loopForeverPlanner []
      (fun ms => ⟨_, rfl, rfl⟩)).1

end DocReview
